import Mathlib

/-!
Verification of the derived-financial-state computation engine of a
personal-finance backend: the pre-save derivation hooks of the TaxRecord,
Budget and EstatePlan schemas, their virtuals (totalIncome, percentageUsed,
totalTransactions, calculatedEstateValue) and the shouldSendAlert method.

Modelling conventions:
  * JS numbers are embedded as rationals (ℚ); Math.round is floor (x + 1/2)
    per the ECMAScript specification (round half toward positive infinity).
  * JS Date values are milliseconds since the Unix epoch (ℤ), with the local
    time zone taken as UTC.  Calendar decomposition and reconstruction
    (getFullYear, getMonth, getDate, the Date constructor, setDate, setMonth,
    setFullYear with their overflow normalisation) follow the proleptic
    Gregorian civil-calendar algorithms.
  * Optional schema fields are Option values.  The JS falsiness test
    !this.field on a numeric field holds when the field is absent or zero;
    on a Date field it holds exactly when the field is absent, a Date object
    being always truthy.
  * The ambient new Date() reads inside the hooks are modelled by threading
    one explicit clock value t through each derivation, as the spec directs.
-/

/-- Milliseconds in one day, 24 * 60 * 60 * 1000. -/
def dayMs : ℤ := 86400000

/-- Milliseconds in one week, 7 * 24 * 60 * 60 * 1000. -/
def weekMs : ℤ := 604800000

/-- Ceiling of the real division a / b for b > 0, as computed by
Math.ceil applied to the exact quotient. -/
def jsCeilDiv (a b : ℤ) : ℤ := -(Int.fdiv (-a) b)

/-- Math.round per ECMAScript: the integer closest to q, ties rounding
toward positive infinity; equal to floor (q + 1/2). -/
def jsRound (q : ℚ) : ℤ := ⌊q + (1 : ℚ)/2⌋

/-- Civil date (year, month 1-12, day 1-31) of a day count relative to
1970-01-01, by the standard Gregorian decomposition algorithm. -/
def civilFromDays (z : ℤ) : ℤ × ℤ × ℤ :=
  let z2 := z + 719468
  let era := Int.fdiv z2 146097
  let doe := z2 - era * 146097
  let yoe := (doe - doe / 1460 + doe / 36524 - doe / 146096) / 365
  let y := yoe + era * 400
  let doy := doe - (365 * yoe + yoe / 4 - yoe / 100)
  let mp := (5 * doy + 2) / 153
  let d := doy - (153 * mp + 2) / 5 + 1
  let m := mp + (if mp < 10 then 3 else -9)
  (y + (if m ≤ 2 then 1 else 0), m, d)

/-- Day count relative to 1970-01-01 of a civil date (month 1-12). -/
def daysFromCivil (y m d : ℤ) : ℤ :=
  let y2 := y - (if m ≤ 2 then 1 else 0)
  let era := Int.fdiv y2 400
  let yoe := y2 - era * 400
  let doy := (153 * (m + (if m > 2 then -3 else 9)) + 2) / 5 + d - 1
  let doe := yoe * 365 + yoe / 4 - yoe / 100 + doy
  era * 146097 + doe - 719468

/-- Epoch day of a millisecond timestamp. -/
def epochDay (t : ℤ) : ℤ := Int.fdiv t dayMs

/-- Milliseconds elapsed since local midnight. -/
def msOfDay (t : ℤ) : ℤ := t - epochDay t * dayMs

/-- Date.prototype.getFullYear. -/
def jsYear (t : ℤ) : ℤ := (civilFromDays (epochDay t)).1

/-- Date.prototype.getMonth: zero-based month. -/
def jsMonth0 (t : ℤ) : ℤ := (civilFromDays (epochDay t)).2.1 - 1

/-- Date.prototype.getDate: day of month. -/
def jsDay (t : ℤ) : ℤ := (civilFromDays (epochDay t)).2.2

/-- Timestamp of the JS Date constructor new Date(y, m0, d) carrying an
additional time-of-day ms, with the JS normalisation of out-of-range
month and day arguments. -/
def mkMillis (y m0 d ms : ℤ) : ℤ :=
  let yAdj := y + Int.fdiv m0 12
  let mAdj := Int.fmod m0 12 + 1
  (daysFromCivil yAdj mAdj 1 + (d - 1)) * dayMs + ms

/-- Effect of d.setDate(d.getDate() + n): same civil fields with the day
of month shifted by n, renormalised. -/
def jsAddDays (t n : ℤ) : ℤ := mkMillis (jsYear t) (jsMonth0 t) (jsDay t + n) (msOfDay t)

/-- Effect of d.setMonth(d.getMonth() + n): same civil fields with the
month shifted by n, renormalised (day overflow rolls forward). -/
def jsAddMonths (t n : ℤ) : ℤ := mkMillis (jsYear t) (jsMonth0 t + n) (jsDay t) (msOfDay t)

/-- Effect of d.setFullYear(d.getFullYear() + n). -/
def jsAddYears (t n : ℤ) : ℤ := mkMillis (jsYear t + n) (jsMonth0 t) (jsDay t) (msOfDay t)

/-- JS falsiness of an optional numeric field: !this.field holds when the
field is absent or equal to 0. -/
def jsFalsyNum : Option ℤ → Bool
  | none => true
  | some v => decide (v = 0)

/-! ## TaxRecord (tax record schema) -/

/-- Income sub-document of the tax record schema: five numeric components,
each defaulting to 0. -/
structure Income where
  wages : ℚ
  dividends : ℚ
  capitalGains : ℚ
  businessIncome : ℚ
  otherIncome : ℚ
deriving DecidableEq

/-- Document construction applying the schema defaults: an absent income
component is cast to its declared default 0. -/
def mkIncome (w d c bi o : Option ℚ) : Income :=
  ⟨w.getD 0, d.getD 0, c.getD 0, bi.getD 0, o.getD 0⟩

/-- Deductions sub-document of the tax record schema. -/
structure Deductions where
  standardDeduction : ℚ
  itemizedDeductions : ℚ
  totalDeductions : ℚ
deriving DecidableEq

/-- The numeric fields of a TaxRecord document that the pre-save hook and
the totalIncome virtual read or write. -/
@[ext] structure TaxRecord where
  income : Income
  deductions : Deductions
  taxableIncome : ℚ
  taxOwed : ℚ
  taxPaid : ℚ
  refundOrOwed : ℚ
deriving DecidableEq

/-- The totalIncome virtual: wages + dividends + capitalGains +
businessIncome + otherIncome. -/
def totalIncome (r : TaxRecord) : ℚ :=
  r.income.wages + r.income.dividends + r.income.capitalGains +
    r.income.businessIncome + r.income.otherIncome

/-- The TaxRecord pre-save hook: taxableIncome := totalIncome −
deductions.totalDeductions; refundOrOwed := taxPaid − taxOwed. -/
def deriveTax (r : TaxRecord) : TaxRecord :=
  { r with
    taxableIncome := totalIncome r - r.deductions.totalDeductions
    refundOrOwed := r.taxPaid - r.taxOwed }

/-! ## Budget (budget schema) -/

/-- The period enum of the budget schema. -/
inductive Period where
  | weekly | monthly | quarterly | yearly
deriving DecidableEq

/-- The status enum of the budget schema. -/
inductive Status where
  | active | completed | paused | exceeded
deriving DecidableEq

/-- The recurringSettings.frequency enum. -/
inductive Frequency where
  | weekly | monthly | quarterly | yearly
deriving DecidableEq

/-- The transaction type enum of the embedded transactions array. -/
inductive TxType where
  | expense | income
deriving DecidableEq

/-- An embedded transaction; only the fields the derivation reads (amount
and type) are carried, the purely descriptive fields (description, date,
category, notes) are inert for every claim. -/
structure Transaction where
  amount : ℚ
  type : TxType
deriving DecidableEq

/-- The alerts.thresholds sub-document. -/
structure Thresholds where
  warning : ℚ
  critical : ℚ
deriving DecidableEq

/-- The alerts sub-document. -/
@[ext] structure Alerts where
  enabled : Bool
  thresholds : Thresholds
  lastAlertSent : Option ℤ
deriving DecidableEq

/-- The recurringSettings sub-document. -/
@[ext] structure RecurringSettings where
  isRecurring : Bool
  frequency : Option Frequency
  endDate : Option ℤ
  nextDueDate : Option ℤ
deriving DecidableEq

/-- The fields of a Budget document that the pre-save hook, the virtuals
and shouldSendAlert read or write. -/
@[ext] structure Budget where
  budgetedAmount : ℚ
  actualAmount : ℚ
  period : Period
  year : Option ℤ
  month : Option ℤ
  week : Option ℤ
  quarter : Option ℤ
  status : Status
  transactions : List Transaction
  alerts : Alerts
  recurringSettings : RecurringSettings
deriving DecidableEq

/-- The percentageUsed virtual as a function of the two amounts it reads:
0 when budgetedAmount is 0, else Math.round of actual / budgeted * 100. -/
def pctUsed (actual budgeted : ℚ) : ℚ :=
  if budgeted = 0 then 0 else ((jsRound (actual / budgeted * 100) : ℤ) : ℚ)

/-- The percentageUsed virtual of a Budget document. -/
def percentageUsed (b : Budget) : ℚ := pctUsed b.actualAmount b.budgetedAmount

/-- The totalTransactions virtual: a left fold over the transactions array,
adding expense amounts and subtracting income amounts. -/
def totalTransactions (txs : List Transaction) : ℚ :=
  txs.foldl (fun total tx => if tx.type = TxType.expense then total + tx.amount else total - tx.amount) 0

/-- Value assigned to this.year by the hook: kept when truthy, else
now.getFullYear(). -/
def yearValue (t : ℤ) (y : Option ℤ) : ℤ :=
  match y with
  | none => jsYear t
  | some v => if v = 0 then jsYear t else v

/-- The period-specific defaulting block of the pre-save hook, reading the
already-updated this.year as yr.  Mutually exclusive else-if chain on the
period; each branch fires only when the matching anchor field is falsy. -/
def defaultPeriodFields (t yr : ℤ) (b : Budget) : Budget :=
  if b.period = Period.monthly ∧ jsFalsyNum b.month then
    { b with month := some (jsMonth0 t + 1) }
  else if b.period = Period.quarterly ∧ jsFalsyNum b.quarter then
    { b with quarter := some (jsCeilDiv (jsMonth0 t + 1) 3) }
  else if b.period = Period.weekly ∧ jsFalsyNum b.week then
    { b with week := some (jsCeilDiv (t - mkMillis yr 0 1 0) weekMs) }
  else b

/-- The status auto-transition block of the pre-save hook. -/
def applyStatusTransition (b : Budget) : Budget :=
  if percentageUsed b ≥ 100 then
    { b with status := Status.exceeded }
  else if b.status = Status.exceeded ∧ percentageUsed b < 100 then
    { b with status := Status.active }
  else b

/-- Offset applied to now for a recurring budget, by frequency; the switch
has no default case, so an absent frequency leaves nextDue at now. -/
def nextDueFromFrequency (t : ℤ) (f : Option Frequency) : ℤ :=
  match f with
  | some Frequency.weekly => jsAddDays t 7
  | some Frequency.monthly => jsAddMonths t 1
  | some Frequency.quarterly => jsAddMonths t 3
  | some Frequency.yearly => jsAddYears t 1
  | none => t

/-- The recurrence-defaulting block of the pre-save hook; a Date object is
always truthy, so the guard tests absence only. -/
def defaultNextDueDate (t : ℤ) (b : Budget) : Budget :=
  if b.recurringSettings.isRecurring ∧ b.recurringSettings.nextDueDate = none then
    { b with recurringSettings :=
        { b.recurringSettings with
            nextDueDate := some (nextDueFromFrequency t b.recurringSettings.frequency) } }
  else b

/-- The Budget pre-save hook, blocks in source order: default year, default
the period anchor, recompute actualAmount from the transactions, run the
status auto-transition, default the recurring next due date.  The year
assignment is written unconditionally with yearValue, which agrees with the
guarded source assignment in both the truthy and the falsy case. -/
def deriveBudget (t : ℤ) (b : Budget) : Budget :=
  let yr := yearValue t b.year
  let b1 : Budget := { b with year := some yr }
  let b2 := defaultPeriodFields t yr b1
  let b3 : Budget := { b2 with actualAmount := totalTransactions b2.transactions }
  let b4 := applyStatusTransition b3
  defaultNextDueDate t b4

/-- The shouldSendAlert method, with the ambient new Date() read threaded
as the explicit clock t.  It computes a Bool only and writes no field. -/
def shouldSendAlert (t : ℤ) (b : Budget) : Bool :=
  if b.alerts.enabled = false then false
  else
    let percentage := percentageUsed b
    let suppressed : Bool :=
      match b.alerts.lastAlertSent with
      | some lastAlert => decide (t - lastAlert < 24 * 60 * 60 * 1000)
      | none => false
    if suppressed then false
    else decide (percentage ≥ b.alerts.thresholds.warning)

/-! ## EstatePlan (estate plan schema) -/

/-- An estate asset; only estimatedValue is read by the derivation. -/
structure Asset where
  estimatedValue : Option ℚ
deriving DecidableEq

/-- The fields of an EstatePlan document that the pre-save hook and the
calculatedEstateValue virtual read or write. -/
@[ext] structure EstatePlan where
  assets : List Asset
  totalEstateValue : ℚ
  nextReviewDate : Option ℤ
deriving DecidableEq

/-- The calculatedEstateValue virtual: a left fold summing
asset.estimatedValue with the JS or-default (asset.estimatedValue or 0). -/
def calculatedEstateValue (p : EstatePlan) : ℚ :=
  p.assets.foldl (fun total a => total + a.estimatedValue.getD 0) 0

/-- The EstatePlan pre-save hook: recompute totalEstateValue, then default
nextReviewDate to one year from now when absent (a Date is always truthy,
so the guard tests absence only). -/
def deriveEstate (t : ℤ) (p : EstatePlan) : EstatePlan :=
  let p1 : EstatePlan := { p with totalEstateValue := calculatedEstateValue p }
  if p1.nextReviewDate = none then
    { p1 with nextReviewDate := some (jsAddYears t 1) }
  else p1

/-! ## Spec-side sum definitions and concrete example documents -/

/-- Sum of the amounts of the expense transactions, following the words of
the spec invariant. -/
def sumExpense (txs : List Transaction) : ℚ :=
  ((txs.filter (fun tx => decide (tx.type = TxType.expense))).map Transaction.amount).sum

/-- Sum of the amounts of the income transactions, following the words of
the spec invariant. -/
def sumIncome (txs : List Transaction) : ℚ :=
  ((txs.filter (fun tx => decide (tx.type = TxType.income))).map Transaction.amount).sum

/-- Default alert configuration (enabled, warning 80, critical 95, no alert
sent yet). -/
def baseAlerts : Alerts := ⟨true, ⟨80, 95⟩, none⟩

/-- Default recurrence configuration (not recurring). -/
def baseRecurring : RecurringSettings := ⟨false, none, none, none⟩

/-- A baseline monthly budget of 100 used by the concrete instances. -/
def baseBudget : Budget :=
  ⟨100, 0, Period.monthly, some 2024, some 1, none, none, Status.active, [],
    baseAlerts, baseRecurring⟩

/-- A completed budget holding one expense transaction of 150 against a
budgeted amount of 100, so its usage is 150 percent. -/
def completedOverBudget : Budget :=
  { baseBudget with status := Status.completed, transactions := [⟨150, TxType.expense⟩] }

/-- A monthly recurring budget with no next due date. -/
def recurringMonthlyBudget : Budget :=
  { baseBudget with recurringSettings := ⟨true, some Frequency.monthly, none, none⟩ }

/-- A budget whose only transaction is an income of 50, so the derived
total is negative. -/
def incomeHeavyBudget : Budget :=
  { baseBudget with transactions := [⟨50, TxType.income⟩] }

/-- A budget at 90 percent usage whose last alert went out at epoch 0. -/
def alertReadyBudget : Budget :=
  { baseBudget with
    actualAmount := 90
    alerts := { baseAlerts with lastAlertSent := some 0 } }

/-- A weekly budget with no week anchor set. -/
def weeklyBudget : Budget :=
  { baseBudget with period := Period.weekly, month := none, week := none }

/-- Local midnight on 2024-01-15. -/
def jan15 : ℤ := mkMillis 2024 0 15 0

/-- An estate plan with three assets valued 100000, 50000 and 25000 and no
next review date. -/
def sampleEstate : EstatePlan := ⟨[⟨some 100000⟩, ⟨some 50000⟩, ⟨some 25000⟩], 0, none⟩

/-! ## Helper lemmas: rounding, folds, and projections of the hooks -/

theorem jsRound_half_bounds (q : ℚ) :
    (jsRound q : ℚ) - 1/2 ≤ q ∧ q < (jsRound q : ℚ) + 1/2 := by
  unfold jsRound
  constructor
  · have h := Int.floor_le (q + (1 : ℚ)/2)
    linarith
  · have h := Int.lt_floor_add_one (q + (1 : ℚ)/2)
    push_cast at h ⊢
    linarith

theorem totalTransactions_foldl (txs : List Transaction) (acc : ℚ) :
    txs.foldl (fun total tx => if tx.type = TxType.expense then total + tx.amount else total - tx.amount) acc
      = acc + sumExpense txs - sumIncome txs := by
  induction txs generalizing acc with
  | nil => simp [sumExpense, sumIncome]
  | cons tx rest ih =>
    simp only [List.foldl_cons, ih, sumExpense, sumIncome, List.filter_cons]
    cases h : tx.type <;> simp [h] <;> ring

theorem totalTransactions_eq (txs : List Transaction) :
    totalTransactions txs = sumExpense txs - sumIncome txs := by
  unfold totalTransactions
  rw [totalTransactions_foldl]
  ring

theorem estateValue_foldl (xs : List Asset) (acc : ℚ) :
    xs.foldl (fun total a => total + a.estimatedValue.getD 0) acc
      = acc + (xs.map (fun a => a.estimatedValue.getD 0)).sum := by
  induction xs generalizing acc with
  | nil => simp
  | cons a rest ih => simp [ih]; ring

theorem calculatedEstateValue_eq (p : EstatePlan) :
    calculatedEstateValue p = (p.assets.map (fun a => a.estimatedValue.getD 0)).sum := by
  unfold calculatedEstateValue
  rw [estateValue_foldl]
  ring

theorem dpf_budgetedAmount (t yr : ℤ) (b : Budget) :
    (defaultPeriodFields t yr b).budgetedAmount = b.budgetedAmount := by
  unfold defaultPeriodFields; split_ifs <;> rfl

theorem dpf_actualAmount (t yr : ℤ) (b : Budget) :
    (defaultPeriodFields t yr b).actualAmount = b.actualAmount := by
  unfold defaultPeriodFields; split_ifs <;> rfl

theorem dpf_period (t yr : ℤ) (b : Budget) :
    (defaultPeriodFields t yr b).period = b.period := by
  unfold defaultPeriodFields; split_ifs <;> rfl

theorem dpf_year (t yr : ℤ) (b : Budget) :
    (defaultPeriodFields t yr b).year = b.year := by
  unfold defaultPeriodFields; split_ifs <;> rfl

theorem dpf_status (t yr : ℤ) (b : Budget) :
    (defaultPeriodFields t yr b).status = b.status := by
  unfold defaultPeriodFields; split_ifs <;> rfl

theorem dpf_transactions (t yr : ℤ) (b : Budget) :
    (defaultPeriodFields t yr b).transactions = b.transactions := by
  unfold defaultPeriodFields; split_ifs <;> rfl

theorem dpf_alerts (t yr : ℤ) (b : Budget) :
    (defaultPeriodFields t yr b).alerts = b.alerts := by
  unfold defaultPeriodFields; split_ifs <;> rfl

theorem dpf_recurringSettings (t yr : ℤ) (b : Budget) :
    (defaultPeriodFields t yr b).recurringSettings = b.recurringSettings := by
  unfold defaultPeriodFields; split_ifs <;> rfl

theorem dpf_month (t yr : ℤ) (b : Budget) :
    (defaultPeriodFields t yr b).month =
      if b.period = Period.monthly ∧ jsFalsyNum b.month then some (jsMonth0 t + 1) else b.month := by
  unfold defaultPeriodFields; split_ifs <;> simp_all

theorem dpf_quarter (t yr : ℤ) (b : Budget) :
    (defaultPeriodFields t yr b).quarter =
      if b.period = Period.quarterly ∧ jsFalsyNum b.quarter then
        some (jsCeilDiv (jsMonth0 t + 1) 3)
      else b.quarter := by
  unfold defaultPeriodFields; split_ifs <;> simp_all

theorem dpf_week (t yr : ℤ) (b : Budget) :
    (defaultPeriodFields t yr b).week =
      if b.period = Period.weekly ∧ jsFalsyNum b.week then
        some (jsCeilDiv (t - mkMillis yr 0 1 0) weekMs)
      else b.week := by
  unfold defaultPeriodFields; split_ifs <;> simp_all

theorem ast_status (b : Budget) :
    (applyStatusTransition b).status =
      if percentageUsed b ≥ 100 then Status.exceeded
      else if b.status = Status.exceeded ∧ percentageUsed b < 100 then Status.active
      else b.status := by
  unfold applyStatusTransition; split_ifs <;> rfl

theorem ast_budgetedAmount (b : Budget) :
    (applyStatusTransition b).budgetedAmount = b.budgetedAmount := by
  unfold applyStatusTransition; split_ifs <;> rfl

theorem ast_actualAmount (b : Budget) :
    (applyStatusTransition b).actualAmount = b.actualAmount := by
  unfold applyStatusTransition; split_ifs <;> rfl

theorem ast_period (b : Budget) : (applyStatusTransition b).period = b.period := by
  unfold applyStatusTransition; split_ifs <;> rfl

theorem ast_year (b : Budget) : (applyStatusTransition b).year = b.year := by
  unfold applyStatusTransition; split_ifs <;> rfl

theorem ast_month (b : Budget) : (applyStatusTransition b).month = b.month := by
  unfold applyStatusTransition; split_ifs <;> rfl

theorem ast_week (b : Budget) : (applyStatusTransition b).week = b.week := by
  unfold applyStatusTransition; split_ifs <;> rfl

theorem ast_quarter (b : Budget) : (applyStatusTransition b).quarter = b.quarter := by
  unfold applyStatusTransition; split_ifs <;> rfl

theorem ast_transactions (b : Budget) :
    (applyStatusTransition b).transactions = b.transactions := by
  unfold applyStatusTransition; split_ifs <;> rfl

theorem ast_alerts (b : Budget) : (applyStatusTransition b).alerts = b.alerts := by
  unfold applyStatusTransition; split_ifs <;> rfl

theorem ast_recurringSettings (b : Budget) :
    (applyStatusTransition b).recurringSettings = b.recurringSettings := by
  unfold applyStatusTransition; split_ifs <;> rfl

theorem dnd_recurringSettings (t : ℤ) (b : Budget) :
    (defaultNextDueDate t b).recurringSettings =
      if b.recurringSettings.isRecurring ∧ b.recurringSettings.nextDueDate = none then
        { b.recurringSettings with
            nextDueDate := some (nextDueFromFrequency t b.recurringSettings.frequency) }
      else b.recurringSettings := by
  unfold defaultNextDueDate; split_ifs <;> rfl

theorem dnd_budgetedAmount (t : ℤ) (b : Budget) :
    (defaultNextDueDate t b).budgetedAmount = b.budgetedAmount := by
  unfold defaultNextDueDate; split_ifs <;> rfl

theorem dnd_actualAmount (t : ℤ) (b : Budget) :
    (defaultNextDueDate t b).actualAmount = b.actualAmount := by
  unfold defaultNextDueDate; split_ifs <;> rfl

theorem dnd_period (t : ℤ) (b : Budget) : (defaultNextDueDate t b).period = b.period := by
  unfold defaultNextDueDate; split_ifs <;> rfl

theorem dnd_year (t : ℤ) (b : Budget) : (defaultNextDueDate t b).year = b.year := by
  unfold defaultNextDueDate; split_ifs <;> rfl

theorem dnd_month (t : ℤ) (b : Budget) : (defaultNextDueDate t b).month = b.month := by
  unfold defaultNextDueDate; split_ifs <;> rfl

theorem dnd_week (t : ℤ) (b : Budget) : (defaultNextDueDate t b).week = b.week := by
  unfold defaultNextDueDate; split_ifs <;> rfl

theorem dnd_quarter (t : ℤ) (b : Budget) : (defaultNextDueDate t b).quarter = b.quarter := by
  unfold defaultNextDueDate; split_ifs <;> rfl

theorem dnd_status (t : ℤ) (b : Budget) : (defaultNextDueDate t b).status = b.status := by
  unfold defaultNextDueDate; split_ifs <;> rfl

theorem dnd_transactions (t : ℤ) (b : Budget) :
    (defaultNextDueDate t b).transactions = b.transactions := by
  unfold defaultNextDueDate; split_ifs <;> rfl

theorem dnd_alerts (t : ℤ) (b : Budget) : (defaultNextDueDate t b).alerts = b.alerts := by
  unfold defaultNextDueDate; split_ifs <;> rfl

theorem deriveBudget_budgetedAmount (t : ℤ) (b : Budget) :
    (deriveBudget t b).budgetedAmount = b.budgetedAmount := by
  simp only [deriveBudget, dnd_budgetedAmount, ast_budgetedAmount, dpf_budgetedAmount]

theorem deriveBudget_period (t : ℤ) (b : Budget) :
    (deriveBudget t b).period = b.period := by
  simp only [deriveBudget, dnd_period, ast_period, dpf_period]

theorem deriveBudget_transactions (t : ℤ) (b : Budget) :
    (deriveBudget t b).transactions = b.transactions := by
  simp only [deriveBudget, dnd_transactions, ast_transactions, dpf_transactions]

theorem deriveBudget_alerts (t : ℤ) (b : Budget) :
    (deriveBudget t b).alerts = b.alerts := by
  simp only [deriveBudget, dnd_alerts, ast_alerts, dpf_alerts]

theorem deriveBudget_year (t : ℤ) (b : Budget) :
    (deriveBudget t b).year = some (yearValue t b.year) := by
  simp only [deriveBudget, dnd_year, ast_year, dpf_year]

theorem deriveBudget_actualAmount (t : ℤ) (b : Budget) :
    (deriveBudget t b).actualAmount = totalTransactions b.transactions := by
  simp only [deriveBudget, dnd_actualAmount, ast_actualAmount, dpf_transactions]

theorem deriveBudget_month (t : ℤ) (b : Budget) :
    (deriveBudget t b).month =
      if b.period = Period.monthly ∧ jsFalsyNum b.month then some (jsMonth0 t + 1)
      else b.month := by
  simp only [deriveBudget, dnd_month, ast_month, dpf_month]

theorem deriveBudget_quarter (t : ℤ) (b : Budget) :
    (deriveBudget t b).quarter =
      if b.period = Period.quarterly ∧ jsFalsyNum b.quarter then
        some (jsCeilDiv (jsMonth0 t + 1) 3)
      else b.quarter := by
  simp only [deriveBudget, dnd_quarter, ast_quarter, dpf_quarter]

theorem deriveBudget_week (t : ℤ) (b : Budget) :
    (deriveBudget t b).week =
      if b.period = Period.weekly ∧ jsFalsyNum b.week then
        some (jsCeilDiv (t - mkMillis (yearValue t b.year) 0 1 0) weekMs)
      else b.week := by
  simp only [deriveBudget, dnd_week, ast_week, dpf_week]

theorem deriveBudget_status (t : ℤ) (b : Budget) :
    (deriveBudget t b).status =
      if pctUsed (totalTransactions b.transactions) b.budgetedAmount ≥ 100 then Status.exceeded
      else if b.status = Status.exceeded ∧
          pctUsed (totalTransactions b.transactions) b.budgetedAmount < 100 then Status.active
      else b.status := by
  simp only [deriveBudget, dnd_status, ast_status, percentageUsed, ast_actualAmount,
    dpf_status, dpf_transactions, dpf_budgetedAmount]

theorem deriveBudget_recurringSettings (t : ℤ) (b : Budget) :
    (deriveBudget t b).recurringSettings =
      if b.recurringSettings.isRecurring ∧ b.recurringSettings.nextDueDate = none then
        { b.recurringSettings with
            nextDueDate := some (nextDueFromFrequency t b.recurringSettings.frequency) }
      else b.recurringSettings := by
  simp only [deriveBudget, dnd_recurringSettings, ast_recurringSettings, dpf_recurringSettings]

theorem yearValue_idem (t : ℤ) (y : Option ℤ) :
    yearValue t (some (yearValue t y)) = yearValue t y := by
  cases y with
  | none => simp only [yearValue]; split_ifs <;> rfl
  | some v => simp only [yearValue]; split_ifs <;> simp_all

theorem deriveBudget_idem (t : ℤ) (b : Budget) :
    deriveBudget t (deriveBudget t b) = deriveBudget t b := by
  apply Budget.ext
  · simp only [deriveBudget_budgetedAmount]
  · simp only [deriveBudget_actualAmount, deriveBudget_transactions]
  · simp only [deriveBudget_period]
  · simp only [deriveBudget_year, yearValue_idem]
  · simp only [deriveBudget_month, deriveBudget_period]
    split_ifs <;> simp_all
  · simp only [deriveBudget_week, deriveBudget_period, deriveBudget_year, yearValue_idem]
    split_ifs <;> simp_all
  · simp only [deriveBudget_quarter, deriveBudget_period]
    split_ifs <;> simp_all
  · simp only [deriveBudget_status, deriveBudget_transactions, deriveBudget_budgetedAmount]
    split_ifs <;> rfl
  · simp only [deriveBudget_transactions]
  · simp only [deriveBudget_alerts]
  · simp only [deriveBudget_recurringSettings]
    split_ifs <;> simp_all

theorem deriveTax_idem (r : TaxRecord) : deriveTax (deriveTax r) = deriveTax r := by
  apply TaxRecord.ext <;> simp [deriveTax, totalIncome]

theorem deriveEstate_idem (t : ℤ) (p : EstatePlan) :
    deriveEstate t (deriveEstate t p) = deriveEstate t p := by
  simp only [deriveEstate]
  split_ifs <;> simp_all [calculatedEstateValue]

/-! ## Claims -/

/-- C1 counterexample: the first branch of the status auto-transition does
not test the current status, so a budget whose status is completed is
changed to exceeded as soon as its usage reaches 100 percent, refuting the
clause that completed or paused budgets are never changed by this rule
regardless of usage.  Concrete input: a completed budget of 100 holding one
expense transaction of 150, derived at clock 0. -/
theorem C1_counterexample :
    completedOverBudget.status = Status.completed ∧
    (deriveBudget 0 completedOverBudget).status = Status.exceeded := by
  refine ⟨rfl, ?_⟩
  rw [deriveBudget_status]
  norm_num [completedOverBudget, baseBudget, totalTransactions, pctUsed, jsRound]

/-- C1 (amended): if percentageUsed(actualAmount, budgetedAmount) reaches
100 the status becomes exceeded regardless of the prior status, completed
and paused included; when usage is below 100 an exceeded status becomes
active and any other status, completed and paused included, is left
unchanged. -/
theorem C1_status_transition (t : ℤ) (b : Budget) :
    (pctUsed (totalTransactions b.transactions) b.budgetedAmount ≥ 100 →
      (deriveBudget t b).status = Status.exceeded) ∧
    (pctUsed (totalTransactions b.transactions) b.budgetedAmount < 100 →
      (deriveBudget t b).status =
        if b.status = Status.exceeded then Status.active else b.status) := by
  constructor
  · intro h
    rw [deriveBudget_status, if_pos h]
  · intro h
    rw [deriveBudget_status, if_neg (by linarith)]
    by_cases hs : b.status = Status.exceeded
    · rw [if_pos ⟨hs, h⟩, if_pos hs]
    · rw [if_neg (by tauto), if_neg hs]

/-- C1 witness: the amended transition applied to the concrete completed
over-budget document at clock 0. -/
theorem C1_witness : (deriveBudget 0 completedOverBudget).status = Status.exceeded :=
  (C1_status_transition 0 completedOverBudget).1
    (by norm_num [completedOverBudget, baseBudget, totalTransactions, pctUsed, jsRound])

/-- C2: after the derivation, actualAmount equals the sum of the expense
transaction amounts minus the sum of the income transaction amounts. -/
theorem C2_actualAmount_invariant (t : ℤ) (b : Budget) :
    (deriveBudget t b).actualAmount = sumExpense b.transactions - sumIncome b.transactions := by
  rw [deriveBudget_actualAmount, totalTransactions_eq]

/-- C3: after the derivation, taxableIncome equals totalIncome minus
deductions.totalDeductions and refundOrOwed equals taxPaid minus taxOwed,
for every record, so caller-supplied values of the two derived fields are
always overwritten; and totalIncome of a document built with any missing
income components counts each missing component as 0. -/
theorem C3_tax_invariant (r : TaxRecord) (w d c bi o : Option ℚ) :
    (deriveTax r).taxableIncome = totalIncome r - r.deductions.totalDeductions ∧
    (deriveTax r).refundOrOwed = r.taxPaid - r.taxOwed ∧
    totalIncome { r with income := mkIncome w d c bi o } =
      w.getD 0 + d.getD 0 + c.getD 0 + bi.getD 0 + o.getD 0 := by
  refine ⟨rfl, rfl, ?_⟩
  simp [totalIncome, mkIncome]

/-- C4: shouldSendAlert, with the clock threaded explicitly, returns true
exactly when alerts are enabled, any recorded lastAlertSent lies at least
24 hours before now (a gap of exactly 24 hours is treated as expired, the
suppression test being a strict less-than), and percentageUsed is at least
the warning threshold; the method computes a Bool and writes no field, so
lastAlertSent is never mutated by it. -/
theorem C4_shouldAlert_iff (t : ℤ) (b : Budget) :
    shouldSendAlert t b = true ↔
      (b.alerts.enabled = true ∧
        (∀ la, b.alerts.lastAlertSent = some la → 24 * 60 * 60 * 1000 ≤ t - la) ∧
        percentageUsed b ≥ b.alerts.thresholds.warning) := by
  unfold shouldSendAlert
  rcases hla : b.alerts.lastAlertSent with _ | la <;>
    cases hE : b.alerts.enabled <;> simp [hla, hE]

/-- C4 witness: a budget at 90 percent usage with warning threshold 80
whose last alert went out exactly 24 hours ago is alerted again. -/
theorem C4_witness : shouldSendAlert 86400000 alertReadyBudget = true :=
  (C4_shouldAlert_iff 86400000 alertReadyBudget).mpr
    ⟨rfl,
     by
       intro la hla
       simp only [alertReadyBudget, baseAlerts] at hla
       cases hla
       norm_num,
     by norm_num [percentageUsed, pctUsed, jsRound, alertReadyBudget, baseBudget, baseAlerts]⟩

/-- C5: for a weekly budget with no week anchor, the derivation sets week
to the ceiling of (now minus January 1 of the record's own year field,
that year being freshly defaulted to the clock's year when it was absent)
divided by 7 days, and leaves month and quarter untouched; a monthly
budget with no month anchor gets month := now's month and a quarterly
budget with no quarter anchor gets quarter := ceil(month of now / 3); and
an anchor field that is present (and nonzero, as the schema bounds
guarantee for a validated document) is never overwritten. -/
theorem C5_period_defaulting (t : ℤ) (b : Budget) :
    (b.period = Period.weekly → b.week = none →
      (deriveBudget t b).week =
        some (jsCeilDiv (t - mkMillis (yearValue t b.year) 0 1 0) weekMs) ∧
      (deriveBudget t b).month = b.month ∧ (deriveBudget t b).quarter = b.quarter) ∧
    (b.period = Period.monthly → b.month = none →
      (deriveBudget t b).month = some (jsMonth0 t + 1) ∧
      (deriveBudget t b).week = b.week ∧ (deriveBudget t b).quarter = b.quarter) ∧
    (b.period = Period.quarterly → b.quarter = none →
      (deriveBudget t b).quarter = some (jsCeilDiv (jsMonth0 t + 1) 3) ∧
      (deriveBudget t b).week = b.week ∧ (deriveBudget t b).month = b.month) ∧
    (∀ m, b.month = some m → m ≠ 0 → (deriveBudget t b).month = b.month) ∧
    (∀ w, b.week = some w → w ≠ 0 → (deriveBudget t b).week = b.week) ∧
    (∀ q, b.quarter = some q → q ≠ 0 → (deriveBudget t b).quarter = b.quarter) := by
  refine ⟨?_, ?_, ?_, ?_, ?_, ?_⟩
  · intro h1 h2
    simp [deriveBudget_week, deriveBudget_month, deriveBudget_quarter, h1, h2, jsFalsyNum]
  · intro h1 h2
    simp [deriveBudget_week, deriveBudget_month, deriveBudget_quarter, h1, h2, jsFalsyNum]
  · intro h1 h2
    simp [deriveBudget_week, deriveBudget_month, deriveBudget_quarter, h1, h2, jsFalsyNum]
  · intro m hm hm0
    simp [deriveBudget_month, hm, jsFalsyNum, hm0]
  · intro w hw hw0
    simp [deriveBudget_week, hw, jsFalsyNum, hw0]
  · intro q hq hq0
    simp [deriveBudget_quarter, hq, jsFalsyNum, hq0]

/-- C5 witness: the weekly budget with year 2024 and no week, derived at
local midnight 2024-01-15, gets week 2 and keeps its month and quarter. -/
theorem C5_witness :
    ((deriveBudget jan15 weeklyBudget).week =
        some (jsCeilDiv (jan15 - mkMillis (yearValue jan15 weeklyBudget.year) 0 1 0) weekMs) ∧
      (deriveBudget jan15 weeklyBudget).month = weeklyBudget.month ∧
      (deriveBudget jan15 weeklyBudget).quarter = weeklyBudget.quarter) ∧
    (deriveBudget jan15 weeklyBudget).week = some 2 :=
  ⟨(C5_period_defaulting jan15 weeklyBudget).1 rfl rfl,
   by
     rw [((C5_period_defaulting jan15 weeklyBudget).1 rfl rfl).1]
     decide⟩

/-- C6: a recurring budget with no next due date gets one at the clock
plus the frequency offset: 7 days for weekly, 1 calendar month for
monthly, 3 calendar months for quarterly, 1 calendar year for yearly (the
setDate, setMonth and setFullYear semantics of the source); a next due
date already present is never changed; and the concrete scenario: a
monthly recurring budget derived at local midnight 2024-01-15 gets a next
due date of 2024-02-15. -/
theorem C6_recurrence_defaulting (t : ℤ) (b : Budget) :
    (b.recurringSettings.isRecurring = true → b.recurringSettings.nextDueDate = none →
      b.recurringSettings.frequency = some Frequency.weekly →
      (deriveBudget t b).recurringSettings.nextDueDate = some (jsAddDays t 7)) ∧
    (b.recurringSettings.isRecurring = true → b.recurringSettings.nextDueDate = none →
      b.recurringSettings.frequency = some Frequency.monthly →
      (deriveBudget t b).recurringSettings.nextDueDate = some (jsAddMonths t 1)) ∧
    (b.recurringSettings.isRecurring = true → b.recurringSettings.nextDueDate = none →
      b.recurringSettings.frequency = some Frequency.quarterly →
      (deriveBudget t b).recurringSettings.nextDueDate = some (jsAddMonths t 3)) ∧
    (b.recurringSettings.isRecurring = true → b.recurringSettings.nextDueDate = none →
      b.recurringSettings.frequency = some Frequency.yearly →
      (deriveBudget t b).recurringSettings.nextDueDate = some (jsAddYears t 1)) ∧
    (∀ d, b.recurringSettings.nextDueDate = some d →
      (deriveBudget t b).recurringSettings.nextDueDate = some d) ∧
    (deriveBudget jan15 recurringMonthlyBudget).recurringSettings.nextDueDate =
      some (mkMillis 2024 1 15 0) := by
  refine ⟨?_, ?_, ?_, ?_, ?_, ?_⟩
  · intro h1 h2 h3
    simp [deriveBudget_recurringSettings, h1, h2, h3, nextDueFromFrequency]
  · intro h1 h2 h3
    simp [deriveBudget_recurringSettings, h1, h2, h3, nextDueFromFrequency]
  · intro h1 h2 h3
    simp [deriveBudget_recurringSettings, h1, h2, h3, nextDueFromFrequency]
  · intro h1 h2 h3
    simp [deriveBudget_recurringSettings, h1, h2, h3, nextDueFromFrequency]
  · intro d hd
    simp [deriveBudget_recurringSettings, hd]
  · rw [deriveBudget_recurringSettings]
    simp [recurringMonthlyBudget, baseBudget, nextDueFromFrequency]
    decide

/-- C6 witness: the monthly clause applied to the concrete recurring
monthly budget at local midnight 2024-01-15. -/
theorem C6_witness :
    (deriveBudget jan15 recurringMonthlyBudget).recurringSettings.nextDueDate =
      some (jsAddMonths jan15 1) :=
  (C6_recurrence_defaulting jan15 recurringMonthlyBudget).2.1 rfl rfl rfl

/-- C7: after the estate derivation, totalEstateValue equals the sum of
the asset estimated values with a missing value counting as 0; an absent
nextReviewDate is set to the clock plus one calendar year and a present
one is never changed. -/
theorem C7_estate_derivation (t : ℤ) (p : EstatePlan) :
    (deriveEstate t p).totalEstateValue =
      (p.assets.map (fun a => a.estimatedValue.getD 0)).sum ∧
    (p.nextReviewDate = none → (deriveEstate t p).nextReviewDate = some (jsAddYears t 1)) ∧
    (∀ d, p.nextReviewDate = some d → (deriveEstate t p).nextReviewDate = some d) := by
  simp only [deriveEstate]
  split_ifs <;> simp_all [calculatedEstateValue_eq]

/-- C7 witness: the estate plan with assets 100000, 50000, 25000 and no
review date, derived at clock 0, totals 175000 and is scheduled for
review at clock 0 plus one year. -/
theorem C7_witness :
    (deriveEstate 0 sampleEstate).totalEstateValue = 175000 ∧
    (deriveEstate 0 sampleEstate).nextReviewDate = some (jsAddYears 0 1) :=
  ⟨by
     rw [(C7_estate_derivation 0 sampleEstate).1]
     norm_num [sampleEstate],
   (C7_estate_derivation 0 sampleEstate).2.1 rfl⟩

/-- C8: percentageUsed returns 0 when the budgeted amount is 0; otherwise
it returns an integer n with actual / budgeted * 100 lying in the
round-half-up window from n minus one half (inclusive) to n plus one half
(exclusive); and the boundary values: percentageUsed(0,0) is 0,
percentageUsed(50,100) is 50, percentageUsed(150,100) is 150. -/
theorem C8_percentageUsed (a bd : ℚ) :
    pctUsed a 0 = 0 ∧
    (bd ≠ 0 → ∃ n : ℤ, pctUsed a bd = (n : ℚ) ∧
      (n : ℚ) - 1/2 ≤ a / bd * 100 ∧ a / bd * 100 < (n : ℚ) + 1/2) ∧
    pctUsed 0 0 = 0 ∧ pctUsed 50 100 = 50 ∧ pctUsed 150 100 = 150 := by
  refine ⟨by simp [pctUsed], ?_, by simp [pctUsed], ?_, ?_⟩
  · intro hbd
    refine ⟨jsRound (a / bd * 100), ?_, jsRound_half_bounds (a / bd * 100)⟩
    simp [pctUsed, hbd]
  · norm_num [pctUsed, jsRound]
  · norm_num [pctUsed, jsRound]

/-- C8 witness: the nonzero clause applied at actual 150, budgeted 100. -/
theorem C8_witness :
    ∃ n : ℤ, pctUsed 150 100 = (n : ℚ) ∧
      (n : ℚ) - 1/2 ≤ (150 : ℚ) / 100 * 100 ∧ (150 : ℚ) / 100 * 100 < (n : ℚ) + 1/2 :=
  (C8_percentageUsed 150 100).2.1 (by norm_num)

/-- C9: with a fixed clock, each of the three derivations is idempotent;
the second run changes no field, the only-if-absent fields included,
because the first run made them present. -/
theorem C9_idempotent (t : ℤ) (r : TaxRecord) (b : Budget) (p : EstatePlan) :
    deriveTax (deriveTax r) = deriveTax r ∧
    deriveBudget t (deriveBudget t b) = deriveBudget t b ∧
    deriveEstate t (deriveEstate t p) = deriveEstate t p :=
  ⟨deriveTax_idem r, deriveBudget_idem t b, deriveEstate_idem t p⟩

/-- C10: the derivation does not clamp actualAmount at 0: on a budget
whose sole transaction is an income of 50, it assigns the strictly
negative value -50, below the declared schema minimum of 0, so the
derivation itself does not preserve non-negativity of actualAmount. -/
theorem C10_negative_actualAmount :
    (deriveBudget 0 incomeHeavyBudget).actualAmount = -50 ∧
    (deriveBudget 0 incomeHeavyBudget).actualAmount < 0 := by
  rw [deriveBudget_actualAmount]
  norm_num [incomeHeavyBudget, baseBudget, totalTransactions]
  constructor
  · decide
  · rw [if_neg (by decide)]
    norm_num
